import Mathlib

/-!
Verification of the Vexa transcription serverless handler (`handler.py`).

The handler is a stateless adapter: it resolves a job's audio input to raw
bytes (inline base64 string, raw bytes, or a URL download), dispatches to a
remote Whisper backend or a local model, and wraps the outcome in a
success/error envelope.

Shallow embedding conventions:
  * Python `dict` job input becomes the `JobInput` structure; key absence is
    `Option.none`, a present key whose value is Python `None` is
    `PyVal.pynone`.
  * Python exceptions become `Except String`; the carried string is
    `str(e)`, i.e. the exception message, which is what `handler` puts in
    the error envelope.
  * Environment variables and the network are an oracle record `World`;
    an HTTP exchange is `Except String (Nat × body)`: `.error msg` is a
    transport failure (an `httpx.HTTPError` with message `msg`), `.ok
    (status, body)` is a received response.  `raise_for_status` raises
    exactly when the status is not 2xx (httpx's `is_success`).
  * Outbound effects (URL GET, backend POST, local model invocation) are
    collected in a `List Effect` trace so that "no transcription call is
    attempted" is a statement about the trace.
  * `base64.b64decode` (with its default `validate=False`) is modelled
    faithfully after CPython's non-strict `binascii.a2b_base64`: characters
    outside the alphabet are discarded, padding can terminate decoding
    early, and a trailing group of one data character is an error.
-/

/-- JSON values, for the parsed body returned by the remote backend and the
local model's result mapping. -/
inductive Json where
  | str (s : String)
  | num (n : Int)
  | bool (b : Bool)
  | null
  | arr (elems : List Json)
  | obj (fields : List (String × Json))

/-- Python values a job's `audio` key can hold.  `isinstance(.., str)`
matches exactly `str`, `isinstance(.., bytes)` matches exactly `bytes`;
everything else (numbers, lists, mappings, `None`) falls to the rejection
branch of `process_audio_input`. -/
inductive PyVal where
  | str (s : String)
  | bytes (bs : List Nat)
  | int (n : Int)
  | list (elems : List PyVal)
  | dict (fields : List (String × PyVal))
  | pynone

/-- The job's `input` mapping.  A field is `none` when the key is absent. -/
structure JobInput where
  audio : Option PyVal
  audio_url : Option String
  language : Option String
  task : Option String
  return_timestamps : Option Bool

/-- The empty mapping, the default that `handler` uses when the job has no `input` key. -/
def JobInput.empty : JobInput :=
  { audio := none, audio_url := none, language := none, task := none,
    return_timestamps := none }

/-- Form fields of the multipart POST to `{backend_url}/transcribe`:
`task` and `return_timestamps` always, `language` only when truthy. -/
structure TranscribePayload where
  task : String
  return_timestamps : Bool
  language : Option String

/-- Outbound effects the handler can perform, recorded as a trace. -/
inductive Effect where
  | httpGet (url : String)
  | httpPost (url : String) (payload : TranscribePayload)
      (authToken : Option String) (audio : List Nat)
  | localTranscribe (modelName : String) (device : String) (audio : List Nat)

/-- Result of the local whisper model's `transcribe` call: `result["text"]`
is accessed unconditionally, `segments` and `language` through `.get` with
defaults. -/
structure LocalWhisperResult where
  text : String
  segments : Option Json
  language : Option String

/-- Environment plus external-world oracles the handler runs against. -/
structure World where
  /-- Value of `os.getenv("WHISPER_SERVICE_URL")`: `none` when unset. -/
  whisper_service_url : Option String
  /-- Value of `os.getenv("WHISPER_API_TOKEN")`. -/
  whisper_api_token : Option String
  /-- Value of `os.getenv("WHISPER_MODEL")`, defaulted to `"base"` on the local path. -/
  whisper_model : Option String
  /-- whether `import whisper; import torch` succeeds in this runtime. -/
  whisper_installed : Bool
  /-- Value of `torch.cuda.is_available()`. -/
  cuda_available : Bool
  /-- outcome of `client.get(url)`: transport failure or (status, content bytes). -/
  httpGet : String → Except String (Nat × List Nat)
  /-- outcome of `client.post(url, files=.., data=payload, headers=..)`:
  transport failure or (status, parsed JSON body). -/
  httpPost : String → TranscribePayload → Option String → List Nat →
      Except String (Nat × Json)
  /-- outcome of `model.transcribe(tmp_path, language=.., task=..,
  word_timestamps=..)` on a temp file holding the given audio bytes. -/
  localTranscribe : String → String → List Nat → Option String → String →
      Bool → LocalWhisperResult

/-- The handler's response dictionary: exactly the two envelope shapes
`{"status": "success", "transcription": ..}` and
`{"status": "error", "error": ..}`. -/
inductive Response where
  | success (transcription : Json)
  | error (msg : String)

/-- Python truthiness of an optional string: `None` and `""` are falsy. -/
def pyTruthy : Option String → Bool
  | none => false
  | some s => !s.isEmpty

/-- httpx `Response.is_success`: status in [200, 300).  `raise_for_status`
raises exactly when this is false. -/
def isSuccessStatus (status : Nat) : Bool :=
  200 ≤ status && status < 300

/-- Representative message of httpx's `HTTPStatusError` for a non-success
status (the exact httpx wording also names the URL; only the fact that a
message is produced matters to the handler). -/
def httpStatusMessage (status : Nat) : String :=
  "HTTP status error " ++ toString status

/- ### base64: CPython `binascii.a2b_base64`, non-strict mode -/

/-- The standard base64 alphabet, in value order. -/
def b64chars : List Char :=
  "ABCDEFGHIJKLMNOPQRSTUVWXYZabcdefghijklmnopqrstuvwxyz0123456789+/".toList

/-- Encoding table: 6-bit value to alphabet character. -/
def b64encTable (v : Nat) : Char :=
  b64chars.getD v 'A'

/-- Decoding table `table_a2b_base64`: alphabet character to 6-bit value,
`none` for every character outside the alphabet (including `=`). -/
def b64decodeTable (c : Char) : Option Nat :=
  if 'A' ≤ c ∧ c ≤ 'Z' then some (c.toNat - 65)
  else if 'a' ≤ c ∧ c ≤ 'z' then some (c.toNat - 97 + 26)
  else if '0' ≤ c ∧ c ≤ '9' then some (c.toNat - 48 + 52)
  else if c = '+' then some 62
  else if c = '/' then some 63
  else none

/-- State of the `a2b_base64` scanning loop: position within the current
4-character quad, the pending high bits, the run of padding characters just
seen, the bytes emitted so far, the count of data (alphabet) characters
consumed, and whether padding completed a quad (CPython's `goto done`,
after which the rest of the input is ignored). -/
structure B64State where
  quadPos : Nat
  leftchar : Nat
  pads : Nat
  out : List Nat
  dataChars : Nat
  finished : Bool

/-- One step of the non-strict `a2b_base64` loop on one input character. -/
def a2bStep (st : B64State) (c : Char) : B64State :=
  if st.finished then st
  else if c = '=' then
    -- a quad of 2 or 3 data characters closed by enough padding ends decoding
    if 2 ≤ st.quadPos ∧ 4 ≤ st.quadPos + (st.pads + 1) then
      { st with pads := st.pads + 1, finished := true }
    else
      { st with pads := st.pads + 1 }
  else
    match b64decodeTable c with
    | none => st  -- non-alphabet characters are discarded in non-strict mode
    | some v =>
      match st.quadPos with
      | 0 => { st with
          pads := 0, quadPos := 1, leftchar := v,
          dataChars := st.dataChars + 1 }
      | 1 => { st with
          pads := 0, quadPos := 2,
          out := st.out ++ [st.leftchar * 4 + v / 16],
          leftchar := v % 16, dataChars := st.dataChars + 1 }
      | 2 => { st with
          pads := 0, quadPos := 3,
          out := st.out ++ [st.leftchar * 16 + v / 4],
          leftchar := v % 4, dataChars := st.dataChars + 1 }
      | _ => { st with
          pads := 0, quadPos := 0,
          out := st.out ++ [st.leftchar * 64 + v],
          leftchar := 0, dataChars := st.dataChars + 1 }

/-- Run the scanning loop over the whole input. -/
def a2bRun (st : B64State) : List Char → B64State
  | [] => st
  | c :: cs => a2bRun (a2bStep st c) cs

/-- Final check of `a2b_base64`: a quad left open at the end of input is an
error (reaching the end via padding, `finished = true`, skips this check). -/
def a2bFinish (st : B64State) : Except String (List Nat) :=
  if st.finished then Except.ok st.out
  else if st.quadPos = 0 then Except.ok st.out
  else if st.quadPos = 1 then
    Except.error ("Invalid base64-encoded string: number of data characters ("
      ++ toString st.dataChars ++ ") cannot be 1 more than a multiple of 4")
  else Except.error "Incorrect padding"

/-- The initial loop state. -/
def b64init : B64State :=
  { quadPos := 0, leftchar := 0, pads := 0, out := [], dataChars := 0,
    finished := false }

/-- Python `base64.b64decode(s)` on a `str` argument: encode to ASCII (a
`UnicodeEncodeError`, a `ValueError`, on any non-ASCII character), then run
non-strict `a2b_base64`. -/
def b64decode (s : String) : Except String (List Nat) :=
  if s.toList.all (fun c => c.toNat < 128) then
    a2bFinish (a2bRun b64init s.toList)
  else
    Except.error "string argument should contain only ASCII characters"

/-- Python `base64.b64encode`: bytes to the standard padded base64 character
sequence, three bytes to four characters. -/
def b64encode : List Nat → List Char
  | a :: b :: c :: rest =>
    b64encTable (a / 4) :: b64encTable (a % 4 * 16 + b / 16) ::
    b64encTable (b % 16 * 4 + c / 64) :: b64encTable (c % 64) :: b64encode rest
  | [a, b] =>
    [b64encTable (a / 4), b64encTable (a % 4 * 16 + b / 16),
     b64encTable (b % 16 * 4), '=']
  | [a] =>
    [b64encTable (a / 4), b64encTable (a % 4 * 16), '=',
     '=']
  | [] => []

/-- Python `base64.b64encode` as a string. -/
def b64encodeStr (bs : List Nat) : String :=
  String.mk (b64encode bs)

/- ### handler.py: the transcriber, resolver and entry point -/

/-- State of `WhisperTranscriber` built by `__init__`: the backend URL and token; the
external-service flag is Python `bool(url)`, so an unset or empty URL
selects the local path. -/
structure WhisperTranscriber where
  whisper_service_url : Option String
  whisper_api_token : Option String
  use_external_service : Bool

/-- Construct the transcriber from the environment. -/
def WhisperTranscriber.mk' (w : World) : WhisperTranscriber :=
  { whisper_service_url := w.whisper_service_url,
    whisper_api_token := w.whisper_api_token,
    use_external_service := pyTruthy w.whisper_service_url }

/-- Embeds `WhisperTranscriber._call_whisper_service`: multipart POST of the audio
to `{backend_url}/transcribe` with `task`/`return_timestamps`/optional
truthy `language` form fields and an optional bearer token; on success the
parsed JSON body is returned verbatim; any `httpx.HTTPError` (non-2xx
status via `raise_for_status`, or transport failure) is re-raised as
`Exception("Failed to call Whisper service: " + msg)`. -/
def callWhisperService (w : World) (t : WhisperTranscriber)
    (audio_bytes : List Nat) (language : Option String) (task : String)
    (return_timestamps : Bool) : List Effect × Except String Json :=
  let url := t.whisper_service_url.getD "" ++ "/transcribe"
  let payload : TranscribePayload :=
    { task := task, return_timestamps := return_timestamps,
      language := if pyTruthy language then language else none }
  let auth := if pyTruthy t.whisper_api_token then t.whisper_api_token else none
  let eff := Effect.httpPost url payload auth audio_bytes
  match w.httpPost url payload auth audio_bytes with
  | Except.error msg =>
    ([eff], Except.error ("Failed to call Whisper service: " ++ msg))
  | Except.ok (status, body) =>
    if isSuccessStatus status then ([eff], Except.ok body)
    else ([eff], Except.error
      ("Failed to call Whisper service: " ++ httpStatusMessage status))

/-- Embeds `WhisperTranscriber._use_local_whisper`: when the model library imports,
load the configured model on the available device, transcribe the audio
from a temp file and map `text`/`segments`/`language` into the result
shape; an `ImportError` becomes the model-unavailable message. -/
def useLocalWhisper (w : World) (audio_bytes : List Nat)
    (language : Option String) (task : String) (return_timestamps : Bool) :
    List Effect × Except String Json :=
  if w.whisper_installed then
    let model_name := w.whisper_model.getD "base"
    let device := if w.cuda_available then "cuda" else "cpu"
    let r := w.localTranscribe model_name device audio_bytes language task
      return_timestamps
    ([Effect.localTranscribe model_name device audio_bytes],
     Except.ok (Json.obj
       [("text", Json.str r.text),
        ("segments", r.segments.getD (Json.arr [])),
        ("language",
          match r.language with
          | some l => Json.str l
          | none => match language with
            | some l => Json.str l
            | none => Json.null)]))
  else
    ([], Except.error
      ("Whisper not installed locally and no WHISPER_SERVICE_URL provided. "
       ++ "Please install openai-whisper or configure WHISPER_SERVICE_URL."))

/-- Embeds `WhisperTranscriber.transcribe_audio`: dispatch on the
construction-time external-service flag. -/
def transcribe_audio (w : World) (t : WhisperTranscriber)
    (audio_bytes : List Nat) (language : Option String) (task : String)
    (return_timestamps : Bool) : List Effect × Except String Json :=
  if t.use_external_service then
    callWhisperService w t audio_bytes language task return_timestamps
  else
    useLocalWhisper w audio_bytes language task return_timestamps

/-- Embeds `download_audio`: one GET of the URL; non-2xx status or transport
failure is re-raised as `Exception("Failed to download audio from URL: "
+ msg)`. -/
def download_audio (w : World) (url : String) :
    List Effect × Except String (List Nat) :=
  match w.httpGet url with
  | Except.error msg =>
    ([Effect.httpGet url],
     Except.error ("Failed to download audio from URL: " ++ msg))
  | Except.ok (status, content) =>
    if isSuccessStatus status then ([Effect.httpGet url], Except.ok content)
    else ([Effect.httpGet url], Except.error
      ("Failed to download audio from URL: " ++ httpStatusMessage status))

/-- Embeds `process_audio_input`: the audio resolver.  The `audio` key is
consulted first; only when it is absent is `audio_url` tried; with neither,
a `ValueError` reports that no audio input was provided. -/
def process_audio_input (w : World) (job_input : JobInput) :
    List Effect × Except String (List Nat) :=
  match job_input.audio with
  | some audio_data =>
    match audio_data with
    | PyVal.str s =>
      (match b64decode s with
       | Except.ok bs => ([], Except.ok bs)
       | Except.error msg =>
         ([], Except.error ("Invalid base64 audio data: " ++ msg)))
    | PyVal.bytes bs => ([], Except.ok bs)
    | _ => ([], Except.error "Audio data must be base64 string or bytes")
  | none =>
    match job_input.audio_url with
    | some url => download_audio w url
    | none =>
      ([], Except.error
        "No audio input provided. Use \x27audio\x27 (base64) or \x27audio_url\x27")

/-- Embeds `handler`: the entry point.  Extracts options, resolves audio,
dispatches transcription, and wraps everything in the success/error
envelope; every exception from either stage is caught and stringified. -/
def handler (w : World) (job : Option JobInput) : List Effect × Response :=
  let job_input := (job.getD JobInput.empty)
  let language := job_input.language
  let task := job_input.task.getD "transcribe"
  let return_timestamps := job_input.return_timestamps.getD true
  match process_audio_input w job_input with
  | (t1, Except.error e) => (t1, Response.error e)
  | (t1, Except.ok audio_bytes) =>
    let transcriber := WhisperTranscriber.mk' w
    match transcribe_audio w transcriber audio_bytes language task
      return_timestamps with
    | (t2, Except.error e) => (t1 ++ t2, Response.error e)
    | (t2, Except.ok result) => (t1 ++ t2, Response.success result)

/- ### base64 lemmas: the decode tables invert the encode table -/

/-- The decode table inverts the encode table on 6-bit values. -/
theorem b64_table_round : ∀ v < 64, b64decodeTable (b64encTable v) = some v := by
  decide

/-- Alphabet characters are never the padding character. -/
theorem b64_table_ne_pad : ∀ v < 64, b64encTable v ≠ '=' := by
  decide

/-- Every encode-table character is ASCII (out-of-range indices hit the
default, also ASCII). -/
theorem b64_table_ascii (v : Nat) : (b64encTable v).toNat < 128 := by
  rcases Nat.lt_or_ge v 64 with h | h
  · exact (by decide : ∀ v < 64, (b64encTable v).toNat < 128) v h
  · unfold b64encTable
    rw [List.getD_eq_default]
    · decide
    · calc b64chars.length = 64 := by decide
        _ ≤ v := h

/-- Every character the encoder emits is ASCII. -/
theorem b64encode_ascii : ∀ (bs : List Nat), ∀ c ∈ b64encode bs, c.toNat < 128
  | [] => by intro c hc; simp [b64encode] at hc
  | [a] => by
    intro c hc
    simp only [b64encode, List.mem_cons, List.not_mem_nil, or_false] at hc
    rcases hc with rfl | rfl | rfl | rfl <;> first | exact b64_table_ascii _ | decide
  | [a, b] => by
    intro c hc
    simp only [b64encode, List.mem_cons, List.not_mem_nil, or_false] at hc
    rcases hc with rfl | rfl | rfl | rfl <;> first | exact b64_table_ascii _ | decide
  | a :: b :: c :: rest => by
    intro x hx
    simp only [b64encode, List.mem_cons] at hx
    rcases hx with rfl | rfl | rfl | rfl | hx
    · exact b64_table_ascii _
    · exact b64_table_ascii _
    · exact b64_table_ascii _
    · exact b64_table_ascii _
    · exact b64encode_ascii rest x hx

/-- A data character advances the loop from quad position 0. -/
theorem a2bStep_q0 (l p dc v : Nat) (out : List Nat) (hv : v < 64) :
    a2bStep ⟨0, l, p, out, dc, false⟩ (b64encTable v) =
      ⟨1, v, 0, out, dc + 1, false⟩ := by
  have h1 : b64encTable v ≠ '=' := b64_table_ne_pad v hv
  have h2 : b64decodeTable (b64encTable v) = some v := b64_table_round v hv
  simp [a2bStep, h1, h2]

/-- A data character advances the loop from quad position 1, emitting the
first byte of the quad. -/
theorem a2bStep_q1 (l p dc v : Nat) (out : List Nat) (hv : v < 64) :
    a2bStep ⟨1, l, p, out, dc, false⟩ (b64encTable v) =
      ⟨2, v % 16, 0, out ++ [l * 4 + v / 16], dc + 1, false⟩ := by
  have h1 : b64encTable v ≠ '=' := b64_table_ne_pad v hv
  have h2 : b64decodeTable (b64encTable v) = some v := b64_table_round v hv
  simp [a2bStep, h1, h2]

/-- A data character advances the loop from quad position 2, emitting the
second byte of the quad. -/
theorem a2bStep_q2 (l p dc v : Nat) (out : List Nat) (hv : v < 64) :
    a2bStep ⟨2, l, p, out, dc, false⟩ (b64encTable v) =
      ⟨3, v % 4, 0, out ++ [l * 16 + v / 4], dc + 1, false⟩ := by
  have h1 : b64encTable v ≠ '=' := b64_table_ne_pad v hv
  have h2 : b64decodeTable (b64encTable v) = some v := b64_table_round v hv
  simp [a2bStep, h1, h2]

/-- A data character closes the quad from position 3, emitting the third
byte. -/
theorem a2bStep_q3 (l p dc v : Nat) (out : List Nat) (hv : v < 64) :
    a2bStep ⟨3, l, p, out, dc, false⟩ (b64encTable v) =
      ⟨0, 0, 0, out ++ [l * 64 + v], dc + 1, false⟩ := by
  have h1 : b64encTable v ≠ '=' := b64_table_ne_pad v hv
  have h2 : b64decodeTable (b64encTable v) = some v := b64_table_round v hv
  simp [a2bStep, h1, h2]

/-- A first padding character after two data characters only counts pads. -/
theorem a2bStep_pad2a (l dc : Nat) (out : List Nat) :
    a2bStep ⟨2, l, 0, out, dc, false⟩ '=' = ⟨2, l, 1, out, dc, false⟩ := by
  simp [a2bStep]

/-- A second padding character after two data characters ends decoding. -/
theorem a2bStep_pad2b (l dc : Nat) (out : List Nat) :
    a2bStep ⟨2, l, 1, out, dc, false⟩ '=' = ⟨2, l, 2, out, dc, true⟩ := by
  simp [a2bStep]

/-- A padding character after three data characters ends decoding. -/
theorem a2bStep_pad3 (l dc : Nat) (out : List Nat) :
    a2bStep ⟨3, l, 0, out, dc, false⟩ '=' = ⟨3, l, 1, out, dc, true⟩ := by
  simp [a2bStep]

/-- Decoding the encoding of any byte sequence, running from a clean quad
boundary, appends exactly those bytes to the output accumulated so far. -/
theorem b64_roundtrip_aux : ∀ (bs : List Nat), (∀ x ∈ bs, x < 256) →
    ∀ (out : List Nat) (dc : Nat),
    a2bFinish (a2bRun ⟨0, 0, 0, out, dc, false⟩ (b64encode bs)) =
      Except.ok (out ++ bs)
  | [] => by
    intro _ out dc
    simp [b64encode, a2bRun, a2bFinish]
  | [a] => by
    intro h out dc
    have ha : a < 256 := h a (by simp)
    simp only [b64encode, a2bRun]
    rw [a2bStep_q0 0 0 dc (a / 4) out (by omega),
        a2bStep_q1 (a / 4) 0 (dc + 1) (a % 4 * 16) out (by omega)]
    rw [(by omega : a % 4 * 16 % 16 = 0),
        (by omega : a / 4 * 4 + a % 4 * 16 / 16 = a)]
    rw [a2bStep_pad2a 0 (dc + 1 + 1) (out ++ [a]),
        a2bStep_pad2b 0 (dc + 1 + 1) (out ++ [a])]
    simp [a2bFinish]
  | [a, b] => by
    intro h out dc
    have ha : a < 256 := h a (by simp)
    have hb : b < 256 := h b (by simp)
    simp only [b64encode, a2bRun]
    rw [a2bStep_q0 0 0 dc (a / 4) out (by omega),
        a2bStep_q1 (a / 4) 0 (dc + 1) (a % 4 * 16 + b / 16) out (by omega)]
    rw [(by omega : (a % 4 * 16 + b / 16) % 16 = b / 16),
        (by omega : a / 4 * 4 + (a % 4 * 16 + b / 16) / 16 = a)]
    rw [a2bStep_q2 (b / 16) 0 (dc + 1 + 1) (b % 16 * 4) (out ++ [a]) (by omega)]
    rw [(by omega : b / 16 * 16 + b % 16 * 4 / 4 = b)]
    rw [a2bStep_pad3 (b % 16 * 4 % 4) (dc + 1 + 1 + 1) (out ++ [a] ++ [b])]
    simp [a2bFinish, List.append_assoc]
  | a :: b :: c :: rest => by
    intro h out dc
    have ha : a < 256 := h a (by simp)
    have hb : b < 256 := h b (by simp)
    have hc : c < 256 := h c (by simp)
    simp only [b64encode, a2bRun]
    rw [a2bStep_q0 0 0 dc (a / 4) out (by omega),
        a2bStep_q1 (a / 4) 0 (dc + 1) (a % 4 * 16 + b / 16) out (by omega)]
    rw [(by omega : (a % 4 * 16 + b / 16) % 16 = b / 16),
        (by omega : a / 4 * 4 + (a % 4 * 16 + b / 16) / 16 = a)]
    rw [a2bStep_q2 (b / 16) 0 (dc + 1 + 1) (b % 16 * 4 + c / 64) (out ++ [a])
        (by omega)]
    rw [(by omega : (b % 16 * 4 + c / 64) % 4 = c / 64),
        (by omega : b / 16 * 16 + (b % 16 * 4 + c / 64) / 4 = b)]
    rw [a2bStep_q3 (c / 64) 0 (dc + 1 + 1 + 1) (c % 64) (out ++ [a] ++ [b])
        (by omega)]
    rw [(by omega : c / 64 * 64 + c % 64 = c)]
    rw [b64_roundtrip_aux rest (fun x hx => h x (by simp [hx]))
        (out ++ [a] ++ [b] ++ [c]) (dc + 1 + 1 + 1 + 1)]
    simp [List.append_assoc]

/-- Decoding the standard base64 encoding of any byte sequence gives back
exactly that byte sequence. -/
theorem b64decode_b64encode (bs : List Nat) (h : ∀ x ∈ bs, x < 256) :
    b64decode (b64encodeStr bs) = Except.ok bs := by
  unfold b64decode b64encodeStr
  have hl : (String.mk (b64encode bs)).toList = b64encode bs := rfl
  rw [hl]
  have hascii : (b64encode bs).all (fun c => c.toNat < 128) = true := by
    rw [List.all_eq_true]
    intro c hcmem
    exact decide_eq_true (b64encode_ascii bs c hcmem)
  rw [if_pos (by simpa using hascii)]
  have : b64init = ⟨0, 0, 0, [], 0, false⟩ := rfl
  rw [show (b64init : B64State) = ⟨0, 0, 0, [], 0, false⟩ from rfl]
  rw [b64_roundtrip_aux bs h [] 0]
  simp

/- ### helper predicates and concrete fixtures -/

/-- Failure of a backend POST exchange as `raise_for_status` sees it:
either a transport error or a response with a non-success status. -/
def postFails : Except String (Nat × Json) → Prop
  | Except.error _ => True
  | Except.ok (st, _) => isSuccessStatus st = false

/-- Modelled from the spec's words ("decode it as standard base64"): a
string is valid standard base64 when it has the shape the standard
encoding produces — alphabet characters followed by at most two `=`
padding characters, with total length a multiple of four. -/
def isValidStdBase64 (s : String) : Bool :=
  let cs := s.toList
  let data := cs.takeWhile (fun c => (b64decodeTable c).isSome)
  let pad := cs.drop data.length
  decide (cs.length % 4 = 0) && decide (pad.length ≤ 2) &&
    pad.all (fun c => c = '=')

/-- The transcription result the spec's mocked-backend example returns. -/
def helloJson : Json :=
  Json.obj [("text", Json.str "hello"), ("segments", Json.arr []),
            ("language", Json.str "en")]

/-- A concrete world: backend configured, downloads answer 404, the
backend answers 200 with `helloJson`. -/
def cWorld : World :=
  { whisper_service_url := some "http://backend",
    whisper_api_token := none,
    whisper_model := none,
    whisper_installed := false,
    cuda_available := false,
    httpGet := fun _ => Except.ok (404, []),
    httpPost := fun _ _ _ _ => Except.ok (200, helloJson),
    localTranscribe := fun _ _ _ _ _ _ =>
      { text := "", segments := none, language := none } }

/-- A concrete world whose backend answers 500. -/
def cWorld500 : World :=
  { cWorld with httpPost := fun _ _ _ _ => Except.ok (500, Json.null) }

/-- A concrete world with no backend URL and no local whisper library. -/
def cWorldLocal : World :=
  { cWorld with whisper_service_url := none }

/- ### the claims -/

/-- C1: for every job mapping the handler returns exactly one of the two
envelope shapes — success carrying the dispatcher's result, or error
carrying the message of the failure raised by the audio resolver or the
transcription dispatcher — and never anything else; a failure anywhere
yields the error envelope with no partial result. -/
theorem handler_envelope (w : World) (job : Option JobInput) :
    (∃ t1 t2 bs t,
      process_audio_input w (job.getD JobInput.empty) = (t1, Except.ok bs) ∧
      transcribe_audio w (WhisperTranscriber.mk' w) bs
        (job.getD JobInput.empty).language
        ((job.getD JobInput.empty).task.getD "transcribe")
        ((job.getD JobInput.empty).return_timestamps.getD true) =
          (t2, Except.ok t) ∧
      handler w job = (t1 ++ t2, Response.success t)) ∨
    (∃ t1 e,
      process_audio_input w (job.getD JobInput.empty) = (t1, Except.error e) ∧
      handler w job = (t1, Response.error e)) ∨
    (∃ t1 t2 bs e,
      process_audio_input w (job.getD JobInput.empty) = (t1, Except.ok bs) ∧
      transcribe_audio w (WhisperTranscriber.mk' w) bs
        (job.getD JobInput.empty).language
        ((job.getD JobInput.empty).task.getD "transcribe")
        ((job.getD JobInput.empty).return_timestamps.getD true) =
          (t2, Except.error e) ∧
      handler w job = (t1 ++ t2, Response.error e)) := by
  rcases hp : process_audio_input w (job.getD JobInput.empty) with ⟨t1, r1⟩
  cases r1 with
  | error e =>
    refine Or.inr (Or.inl ⟨t1, e, rfl, ?_⟩)
    simp [handler, hp]
  | ok bs =>
    rcases ht : transcribe_audio w (WhisperTranscriber.mk' w) bs
        (job.getD JobInput.empty).language
        ((job.getD JobInput.empty).task.getD "transcribe")
        ((job.getD JobInput.empty).return_timestamps.getD true) with ⟨t2, r2⟩
    cases r2 with
    | ok t =>
      refine Or.inl ⟨t1, t2, bs, t, rfl, ht, ?_⟩
      simp [handler, hp, ht]
    | error e =>
      refine Or.inr (Or.inr ⟨t1, t2, bs, e, rfl, ht, ?_⟩)
      simp [handler, hp, ht]

/-- C2: with a backend URL configured, when the backend answers the
multipart POST to the transcribe endpoint with HTTP 200 and a JSON body,
the handler returns the success envelope carrying that parsed body
verbatim, with no validation or transformation. -/
theorem handler_backend_success (w : World) (u s : String) (bs : List Nat)
    (j : Json) (lang : Option String)
    (hurl : w.whisper_service_url = some u)
    (hne : u.isEmpty = false)
    (hdec : b64decode s = Except.ok bs)
    (hpost : ∀ p a, w.httpPost (u ++ "/transcribe") p a bs =
      Except.ok (200, j)) :
    (handler w (some ⟨some (PyVal.str s), none, lang, none, none⟩)).2 =
      Response.success j := by
  have h2 : WhisperTranscriber.mk' w =
      ⟨some u, w.whisper_api_token, true⟩ := by
    simp [WhisperTranscriber.mk', hurl, pyTruthy, hne]
  have h1 : process_audio_input w ⟨some (PyVal.str s), none, lang, none, none⟩
      = ([], Except.ok bs) := by
    simp [process_audio_input, hdec]
  have h3 : (transcribe_audio w (WhisperTranscriber.mk' w) bs lang
      "transcribe" true).2 = Except.ok j := by
    rw [h2]
    simp [transcribe_audio, callWhisperService, hpost, isSuccessStatus]
  rcases ht : transcribe_audio w (WhisperTranscriber.mk' w) bs lang
      "transcribe" true with ⟨t2, r2⟩
  rw [ht] at h3
  simp only at h3
  subst h3
  simp [handler, h1, ht]

/-- C2 witness: the spec's mocked-backend example, instantiated. -/
theorem handler_backend_success_witness :
    cWorld.whisper_service_url = some "http://backend" ∧
    ("http://backend").isEmpty = false ∧
    b64decode "aGVsbG8=" = Except.ok [104, 101, 108, 108, 111] ∧
    (∀ p a, cWorld.httpPost ("http://backend" ++ "/transcribe") p a
      [104, 101, 108, 108, 111] = Except.ok (200, helloJson)) ∧
    (handler cWorld (some ⟨some (PyVal.str "aGVsbG8="), none, some "en",
      none, none⟩)).2 = Response.success helloJson :=
  ⟨rfl, rfl, rfl, fun _ _ => rfl,
    handler_backend_success cWorld "http://backend" "aGVsbG8="
      [104, 101, 108, 108, 111] helloJson (some "en") rfl rfl rfl
      (fun _ _ => rfl)⟩

/-- C3 counterexample: `"####"` is not valid standard base64 (no character
is even in the alphabet), yet the lenient decode used by the resolver
discards the invalid characters and succeeds with empty bytes, and with a
working backend the handler returns a success envelope — so "every
non-valid-base64 audio string yields an error envelope" is false. -/
theorem invalid_base64_can_succeed :
    isValidStdBase64 "####" = false ∧
    b64decode "####" = Except.ok [] ∧
    (handler cWorld (some ⟨some (PyVal.str "####"), none, none, none,
      none⟩)).2 = Response.success helloJson :=
  ⟨rfl, rfl, rfl⟩

/-- C3 amended: for every job input whose `audio` string makes the lenient
Python base64 decode fail (such as `"!!!not-base64!!!"`, which leaves nine
data characters, one more than a multiple of four), the handler returns
the invalid-input error envelope wrapping the decode failure, never a
success envelope. -/
theorem handler_invalid_base64 (w : World) (ji : JobInput) (s m : String)
    (haud : ji.audio = some (PyVal.str s))
    (hdec : b64decode s = Except.error m) :
    (handler w (some ji)).2 =
      Response.error ("Invalid base64 audio data: " ++ m) := by
  have h1 : process_audio_input w ji =
      ([], Except.error ("Invalid base64 audio data: " ++ m)) := by
    simp [process_audio_input, haud, hdec]
  simp [handler, h1]

/-- C3 amended witness: the spec's malformed-encoding example. -/
theorem handler_invalid_base64_witness :
    b64decode "!!!not-base64!!!" = Except.error
      ("Invalid base64-encoded string: number of data characters (9) "
       ++ "cannot be 1 more than a multiple of 4") ∧
    (handler cWorld (some ⟨some (PyVal.str "!!!not-base64!!!"), none, none,
      none, none⟩)).2 = Response.error
      ("Invalid base64 audio data: "
       ++ "Invalid base64-encoded string: number of data characters (9) "
       ++ "cannot be 1 more than a multiple of 4") :=
  ⟨rfl, handler_invalid_base64 cWorld
    ⟨some (PyVal.str "!!!not-base64!!!"), none, none, none, none⟩
    "!!!not-base64!!!"
    ("Invalid base64-encoded string: number of data characters (9) "
     ++ "cannot be 1 more than a multiple of 4") rfl rfl⟩

/-- C4: when both the `audio` and `audio_url` keys are absent, the handler
returns the error envelope with the missing-input message. -/
theorem handler_missing_input (w : World) (ji : JobInput)
    (ha : ji.audio = none) (hu : ji.audio_url = none) :
    (handler w (some ji)).2 = Response.error
      "No audio input provided. Use \x27audio\x27 (base64) or \x27audio_url\x27" := by
  have h1 : process_audio_input w ji = ([], Except.error
      "No audio input provided. Use \x27audio\x27 (base64) or \x27audio_url\x27") := by
    simp [process_audio_input, ha, hu]
  simp [handler, h1]

/-- C4 witness: the empty job input. -/
theorem handler_missing_input_witness :
    JobInput.empty.audio = none ∧ JobInput.empty.audio_url = none ∧
    (handler cWorld (some JobInput.empty)).2 = Response.error
      "No audio input provided. Use \x27audio\x27 (base64) or \x27audio_url\x27" :=
  ⟨rfl, rfl, handler_missing_input cWorld JobInput.empty rfl rfl⟩

/-- C5: when the audio comes from `audio_url` and the GET fails — transport
failure or any non-success HTTP status such as 404 — the handler returns
the download-error envelope, and its whole effect trace is that single
GET: no backend POST and no local model invocation ever happens. -/
theorem handler_download_failure (w : World) (ji : JobInput) (url : String)
    (ha : ji.audio = none) (hu : ji.audio_url = some url)
    (hfail : ∀ st content, w.httpGet url = Except.ok (st, content) →
      isSuccessStatus st = false) :
    (∃ m, handler w (some ji) =
      ([Effect.httpGet url],
       Response.error ("Failed to download audio from URL: " ++ m))) := by
  rcases hg : w.httpGet url with m | ⟨st, content⟩
  · refine ⟨m, ?_⟩
    have h1 : process_audio_input w ji = ([Effect.httpGet url],
        Except.error ("Failed to download audio from URL: " ++ m)) := by
      simp [process_audio_input, download_audio, ha, hu, hg]
    simp [handler, h1]
  · refine ⟨httpStatusMessage st, ?_⟩
    have hns : isSuccessStatus st = false := hfail st content hg
    have h1 : process_audio_input w ji = ([Effect.httpGet url],
        Except.error ("Failed to download audio from URL: "
          ++ httpStatusMessage st)) := by
      simp [process_audio_input, download_audio, ha, hu, hg, hns]
    simp [handler, h1]

/-- C5 witness: a mocked 404 download. -/
theorem handler_download_failure_witness :
    ((JobInput.empty.audio = none ∧
      ({ JobInput.empty with audio_url := some "http://a" } : JobInput).audio_url
        = some "http://a") ∧
     (∀ st content, cWorld.httpGet "http://a" = Except.ok (st, content) →
       isSuccessStatus st = false)) ∧
    (∃ m, handler cWorld (some { JobInput.empty with audio_url := some "http://a" }) =
      ([Effect.httpGet "http://a"],
       Response.error ("Failed to download audio from URL: " ++ m))) :=
  ⟨⟨⟨rfl, rfl⟩, fun st content h => by
      cases h; rfl⟩,
   handler_download_failure cWorld
     { JobInput.empty with audio_url := some "http://a" } "http://a" rfl rfl
     (fun st content h => by cases h; rfl)⟩

/-- C6: with a backend URL configured, whenever the backend POST fails —
error status such as 500, or transport failure — the handler returns an
error envelope whose message wraps the underlying failure in the
backend-failure text, never a success envelope. -/
theorem handler_backend_failure (w : World) (ji : JobInput) (bs : List Nat)
    (u : String)
    (hurl : w.whisper_service_url = some u)
    (hne : u.isEmpty = false)
    (haud : ji.audio = some (PyVal.bytes bs))
    (hpost : ∀ p a, postFails (w.httpPost (u ++ "/transcribe") p a bs)) :
    ∃ m, (handler w (some ji)).2 =
      Response.error ("Failed to call Whisper service: " ++ m) := by
  have h2 : WhisperTranscriber.mk' w =
      ⟨some u, w.whisper_api_token, true⟩ := by
    simp [WhisperTranscriber.mk', hurl, pyTruthy, hne]
  have h1 : process_audio_input w ji = ([], Except.ok bs) := by
    simp [process_audio_input, haud]
  set p : TranscribePayload :=
    { task := ji.task.getD "transcribe",
      return_timestamps := ji.return_timestamps.getD true,
      language := if pyTruthy ji.language then ji.language else none } with hp
  set a : Option String :=
    if pyTruthy w.whisper_api_token then w.whisper_api_token else none with hath
  have hf := hpost p a
  rcases hr : w.httpPost (u ++ "/transcribe") p a bs with m | ⟨st, body⟩
  · refine ⟨m, ?_⟩
    have h3 : transcribe_audio w (WhisperTranscriber.mk' w) bs ji.language
        (ji.task.getD "transcribe") (ji.return_timestamps.getD true) =
        ([Effect.httpPost (u ++ "/transcribe") p a bs],
         Except.error ("Failed to call Whisper service: " ++ m)) := by
      rw [h2]
      simp only [transcribe_audio, callWhisperService]
      simp [hp, hath, hr]
    simp [handler, h1, h3]
  · rw [hr] at hf
    have hns : isSuccessStatus st = false := hf
    refine ⟨httpStatusMessage st, ?_⟩
    have h3 : transcribe_audio w (WhisperTranscriber.mk' w) bs ji.language
        (ji.task.getD "transcribe") (ji.return_timestamps.getD true) =
        ([Effect.httpPost (u ++ "/transcribe") p a bs],
         Except.error ("Failed to call Whisper service: "
           ++ httpStatusMessage st)) := by
      rw [h2]
      simp only [transcribe_audio, callWhisperService]
      simp [hp, hath, hr, hns]
    simp [handler, h1, h3]

/-- C6 witness: a mocked backend answering 500. -/
theorem handler_backend_failure_witness :
    (cWorld500.whisper_service_url = some "http://backend" ∧
     (∀ p a, postFails (cWorld500.httpPost ("http://backend" ++ "/transcribe")
       p a [1, 2, 3]))) ∧
    (∃ m, (handler cWorld500 (some { JobInput.empty with
        audio := some (PyVal.bytes [1, 2, 3]) })).2 =
      Response.error ("Failed to call Whisper service: " ++ m)) :=
  ⟨⟨rfl, fun _ _ => rfl⟩,
   handler_backend_failure cWorld500
     { JobInput.empty with audio := some (PyVal.bytes [1, 2, 3]) }
     [1, 2, 3] "http://backend" rfl rfl rfl (fun _ _ => rfl)⟩

/-- C7: with no backend URL configured (unset or empty, so the dispatch
selects the local path) and the local whisper library not importable, the
handler returns the error envelope whose message names both missing
pieces and directs the operator to install the library or configure the
backend. -/
theorem handler_model_unavailable (w : World) (ji : JobInput)
    (bs : List Nat)
    (hurl : pyTruthy w.whisper_service_url = false)
    (hinst : w.whisper_installed = false)
    (haud : ji.audio = some (PyVal.bytes bs)) :
    (handler w (some ji)).2 = Response.error
      ("Whisper not installed locally and no WHISPER_SERVICE_URL provided. "
       ++ "Please install openai-whisper or configure WHISPER_SERVICE_URL.") := by
  have h1 : process_audio_input w ji = ([], Except.ok bs) := by
    simp [process_audio_input, haud]
  have h3 : transcribe_audio w (WhisperTranscriber.mk' w) bs ji.language
      (ji.task.getD "transcribe") (ji.return_timestamps.getD true) =
      ([], Except.error
        ("Whisper not installed locally and no WHISPER_SERVICE_URL provided. "
         ++ "Please install openai-whisper or configure WHISPER_SERVICE_URL.")) := by
    simp [transcribe_audio, WhisperTranscriber.mk', hurl, useLocalWhisper, hinst]
  simp [handler, h1, h3]

/-- C7 witness: no backend configured, whisper not installed. -/
theorem handler_model_unavailable_witness :
    pyTruthy cWorldLocal.whisper_service_url = false ∧
    cWorldLocal.whisper_installed = false ∧
    (handler cWorldLocal (some { JobInput.empty with
        audio := some (PyVal.bytes [1, 2, 3]) })).2 = Response.error
      ("Whisper not installed locally and no WHISPER_SERVICE_URL provided. "
       ++ "Please install openai-whisper or configure WHISPER_SERVICE_URL.") :=
  ⟨rfl, rfl, handler_model_unavailable cWorldLocal
    { JobInput.empty with audio := some (PyVal.bytes [1, 2, 3]) }
    [1, 2, 3] rfl rfl rfl⟩

/-- C8: when the `audio` key is present, the resolver uses it — decoding a
string, passing bytes through — performs no outbound effect at all, and
its result does not depend on `audio_url`: the URL branch is reachable
only with `audio` absent. -/
theorem process_audio_inline_priority (w : World) (ji : JobInput)
    (v : PyVal) (url : String)
    (ha : ji.audio = some v) (hu : ji.audio_url = some url) :
    (process_audio_input w ji).1 = [] ∧
    process_audio_input w ji =
      process_audio_input w { ji with audio_url := none } ∧
    (∀ bs, v = PyVal.bytes bs →
      (process_audio_input w ji).2 = Except.ok bs) ∧
    (∀ s, v = PyVal.str s →
      (process_audio_input w ji).2 =
        (match b64decode s with
         | Except.ok bs => Except.ok bs
         | Except.error m =>
           Except.error ("Invalid base64 audio data: " ++ m))) := by
  refine ⟨?_, ?_, ?_, ?_⟩
  · cases v with
    | str s =>
      rcases hd : b64decode s with m | bs <;> simp [process_audio_input, ha, hd]
    | bytes bs => simp [process_audio_input, ha]
    | int n => simp [process_audio_input, ha]
    | list xs => simp [process_audio_input, ha]
    | dict fs => simp [process_audio_input, ha]
    | pynone => simp [process_audio_input, ha]
  · simp [process_audio_input, ha]
  · rintro bs rfl
    simp [process_audio_input, ha]
  · rintro s rfl
    rcases hd : b64decode s with m | bs <;> simp [process_audio_input, ha, hd]

/-- C8 witness: both keys present, raw bytes win and no effect happens. -/
theorem process_audio_inline_priority_witness :
    (({ JobInput.empty with
        audio := some (PyVal.bytes [9, 8]),
        audio_url := some "http://a" } : JobInput).audio =
      some (PyVal.bytes [9, 8]) ∧
     ({ JobInput.empty with
        audio := some (PyVal.bytes [9, 8]),
        audio_url := some "http://a" } : JobInput).audio_url =
      some "http://a") ∧
    (process_audio_input cWorld { JobInput.empty with
        audio := some (PyVal.bytes [9, 8]),
        audio_url := some "http://a" }).1 = [] ∧
    (process_audio_input cWorld { JobInput.empty with
        audio := some (PyVal.bytes [9, 8]),
        audio_url := some "http://a" }).2 = Except.ok [9, 8] :=
  ⟨⟨rfl, rfl⟩,
   (process_audio_inline_priority cWorld
     { JobInput.empty with
       audio := some (PyVal.bytes [9, 8]),
       audio_url := some "http://a" } (PyVal.bytes [9, 8]) "http://a"
     rfl rfl).1,
   (process_audio_inline_priority cWorld
     { JobInput.empty with
       audio := some (PyVal.bytes [9, 8]),
       audio_url := some "http://a" } (PyVal.bytes [9, 8]) "http://a"
     rfl rfl).2.2.1 [9, 8] rfl⟩

/-- C9: decoding the standard base64 encoding of any byte sequence with
the resolver's decode step yields exactly those bytes — both for the bare
decode and through `process_audio_input`. -/
theorem b64decode_roundtrip (w : World) (bs : List Nat)
    (h : ∀ x ∈ bs, x < 256) :
    b64decode (b64encodeStr bs) = Except.ok bs ∧
    (process_audio_input w { JobInput.empty with
        audio := some (PyVal.str (b64encodeStr bs)) }).2 = Except.ok bs := by
  have hd := b64decode_b64encode bs h
  exact ⟨hd, by simp [process_audio_input, JobInput.empty, hd]⟩

/-- C9 witness: a concrete byte sequence round-trips. -/
theorem b64decode_roundtrip_witness :
    (∀ x ∈ [0, 255, 17, 3], x < 256) ∧
    b64decode (b64encodeStr [0, 255, 17, 3]) = Except.ok [0, 255, 17, 3] ∧
    (process_audio_input cWorld { JobInput.empty with
        audio := some (PyVal.str (b64encodeStr [0, 255, 17, 3])) }).2 =
      Except.ok [0, 255, 17, 3] :=
  ⟨by decide, b64decode_roundtrip cWorld [0, 255, 17, 3] (by decide)⟩

/-- C10: a present `audio` value that is neither a string nor raw bytes —
a number, a list, a mapping, or `None` — makes the handler return the
error envelope with the must-be-string-or-bytes message. -/
theorem handler_rejects_other_audio (w : World) (ji : JobInput) (v : PyVal)
    (haud : ji.audio = some v)
    (hs : ∀ s, v ≠ PyVal.str s)
    (hb : ∀ bs, v ≠ PyVal.bytes bs) :
    (handler w (some ji)).2 =
      Response.error "Audio data must be base64 string or bytes" := by
  have h1 : process_audio_input w ji =
      ([], Except.error "Audio data must be base64 string or bytes") := by
    cases v with
    | str s => exact absurd rfl (hs s)
    | bytes bs => exact absurd rfl (hb bs)
    | int n => simp [process_audio_input, haud]
    | list xs => simp [process_audio_input, haud]
    | dict fs => simp [process_audio_input, haud]
    | pynone => simp [process_audio_input, haud]
  simp [handler, h1]

/-- C10 witness: a numeric `audio` value is rejected. -/
theorem handler_rejects_other_audio_witness :
    (∀ s, PyVal.int 3 ≠ PyVal.str s) ∧
    (∀ bs, PyVal.int 3 ≠ PyVal.bytes bs) ∧
    (handler cWorld (some { JobInput.empty with
        audio := some (PyVal.int 3) })).2 =
      Response.error "Audio data must be base64 string or bytes" :=
  ⟨fun s h => (by cases h), fun bs h => (by cases h),
   handler_rejects_other_audio cWorld
     { JobInput.empty with audio := some (PyVal.int 3) } (PyVal.int 3)
     rfl (fun s h => by cases h) (fun bs h => by cases h)⟩
